import Mathlib

/-!
Verification of the authentication core of ng-amplify-gen2-seed: the
AuthService session store, the AuthGuard, and the AuthInterceptor.

The TypeScript code is shallowly embedded as pure Lean functions.
Asynchronous provider calls (Amplify getCurrentUser, fetchAuthSession,
signIn, signOut) are modelled by passing their outcome as an explicit
Except-valued parameter; a promise rejection is the error case.  The
single-threaded event loop serialises all state transitions, so each
method body becomes a sequential state-passing function.
-/

namespace SeedAuth

/-- Opaque identity record returned by the identity provider; the core
never inspects its fields, so a plain string stands for it. -/
abbrev AuthUser := String

/-- The AuthState record published on the authState signal and subject
(interface AuthState in auth.service). -/
structure AuthState where
  isAuthenticated : Bool
  user : Option AuthUser
  isLoading : Bool
  error : Option String
  sessionExpiry : Option Nat
  deriving DecidableEq

/-- Initial value given to authStateSignal in the service. -/
def initialAuthState : AuthState :=
  { isAuthenticated := false, user := none, isLoading := false,
    error := none, sessionExpiry := none }

/-- Whole-service state: the legacy BehaviorSubject pair
(isAuthenticatedSubject / currentUserSubject), the AuthState record,
the session refresh timer bookkeeping, and the sessionStorage slot
used for the return URL.  liveTimers records every rxjs subscription
created by setupSessionRefresh that has not been unsubscribed, so that
timer duplication is observable in the model. -/
structure ServiceState where
  legacyIsAuthenticated : Bool
  legacyUser : Option AuthUser
  authState : AuthState
  sessionRefreshTimer : Option Nat
  liveTimers : List Nat
  nextTimerId : Nat
  returnUrlSlot : Option String
  deriving DecidableEq

/-- Service state at construction time, before the constructor body runs. -/
def initialServiceState : ServiceState :=
  { legacyIsAuthenticated := false, legacyUser := none,
    authState := initialAuthState,
    sessionRefreshTimer := none, liveTimers := [], nextTimerId := 0,
    returnUrlSlot := none }

/-- setLoading(isLoading): overwrite only the isLoading field of the record. -/
def setLoading (s : ServiceState) (b : Bool) : ServiceState :=
  { s with authState := { s.authState with isLoading := b } }

/-- setError(error): overwrite only the error field of the record. -/
def setError (s : ServiceState) (e : Option String) : ServiceState :=
  { s with authState := { s.authState with error := e } }

/-- updateAuthState(isAuthenticated, user): replaces the record, keeping
the current isLoading, clearing error, and recomputing sessionExpiry via
getSessionExpiry only when authenticated.  expiryFetch is the value the
getSessionExpiry call resolves to (that method never rejects: it catches
and returns null). -/
def updateAuthState (s : ServiceState) (isAuth : Bool) (user : Option AuthUser)
    (expiryFetch : Option Nat) : ServiceState :=
  { s with authState :=
      { isAuthenticated := isAuth,
        user := user,
        isLoading := s.authState.isLoading,
        error := none,
        sessionExpiry := if isAuth then expiryFetch else none } }

/-- clearSessionTimer(): unsubscribe the referenced subscription, if any,
and drop the reference. -/
def clearSessionTimer (s : ServiceState) : ServiceState :=
  match s.sessionRefreshTimer with
  | some id =>
      { s with sessionRefreshTimer := none, liveTimers := s.liveTimers.erase id }
  | none => s

/-- setupSessionRefresh(): first clearSessionTimer(), then subscribe a new
recurring rx timer and store the subscription. -/
def setupSessionRefresh (s : ServiceState) : ServiceState :=
  let s1 := clearSessionTimer s
  { s1 with
    sessionRefreshTimer := some s1.nextTimerId,
    liveTimers := s1.nextTimerId :: s1.liveTimers,
    nextTimerId := s1.nextTimerId + 1 }

/-- Arguments the service passes to the rx timer factory in
setupSessionRefresh: timer(0, 45 * 60 * 1000). -/
def sessionRefreshTimerArgs : Nat × Nat := (0, 45 * 60 * 1000)

/-- Semantics of the rx recurring timer: timer(due, period) fires its
k-th tick at time due + period * k, for every k while subscribed. -/
def rxTimerFireTime (due period k : Nat) : Nat := due + period * k

/-- checkAuthStatus(): query getCurrentUser; on success publish (true,
user) on the legacy subjects and resolve true; the catch branch
publishes (false, null) and resolves false, so the returned promise is
always a resolution (Except.ok), never a rejection. -/
def checkAuthStatusRun (s : ServiceState) (fetchUser : Except Unit AuthUser) :
    ServiceState × Except Unit Bool :=
  match fetchUser with
  | Except.ok u =>
      ({ s with legacyIsAuthenticated := true, legacyUser := some u }, Except.ok true)
  | Except.error _ =>
      ({ s with legacyIsAuthenticated := false, legacyUser := none }, Except.ok false)

/-- setAuthenticated(user): publish (true, user) on the legacy subjects. -/
def setAuthenticated (s : ServiceState) (u : AuthUser) : ServiceState :=
  { s with legacyIsAuthenticated := true, legacyUser := some u }

/-- logout(): remote signOut, then clear the legacy subjects and navigate
to the landing page; the catch branch performs the same clearing and
navigation, so the remote outcome does not change the effect. -/
def logoutRun (s : ServiceState) (remoteOk : Bool) : ServiceState × List String :=
  match remoteOk with
  | true =>
      ({ s with legacyIsAuthenticated := false, legacyUser := none }, ["/landing"])
  | false =>
      ({ s with legacyIsAuthenticated := false, legacyUser := none }, ["/landing"])

/-- Error-name to user-facing message mapping of handleAuthError. -/
def mapAuthErrorMessage (name : String) : String :=
  if name = "UserNotConfirmedException" then
    "Please confirm your email address before signing in."
  else if name = "NotAuthorizedException" then
    "Invalid email or password."
  else if name = "UserNotFoundException" then
    "No account found with this email address."
  else if name = "TooManyRequestsException" then
    "Too many failed attempts. Please try again later."
  else if name = "LimitExceededException" then
    "Attempt limit exceeded. Please try again later."
  else
    "An unexpected error occurred. Please try again."

/-- handleAuthError(error, operation): set the mapped message as the
Session error. -/
def handleAuthError (s : ServiceState) (errName : String) : ServiceState :=
  setError s (some (mapAuthErrorMessage errName))

/-- Result of a signOut() run: final state, navigations performed, and
whether the method rethrew the provider error. -/
structure SignOutResult where
  state : ServiceState
  navigations : List String
  threw : Bool
  deriving DecidableEq

/-- signOut(): setLoading(true); remote signOut; on success
updateAuthState(false, null), clearSessionTimer, navigate to /login; on
remote failure handleAuthError and rethrow; finally setLoading(false). -/
def signOutRun (s : ServiceState) (remote : Except String Unit) : SignOutResult :=
  let s1 := setLoading s true
  match remote with
  | Except.ok _ =>
      let s2 := updateAuthState s1 false none none
      let s3 := clearSessionTimer s2
      let s4 := setLoading s3 false
      { state := s4, navigations := ["/login"], threw := false }
  | Except.error name =>
      let s2 := handleAuthError s1 name
      let s3 := setLoading s2 false
      { state := s3, navigations := [], threw := true }

/-- getReturnUrl(): read and remove the sessionStorage slot; a missing or
empty stored value falls back to /dashboard via the JS or-else. -/
def getReturnUrl (s : ServiceState) : ServiceState × String :=
  let v := s.returnUrlSlot
  let s1 := { s with returnUrlSlot := none }
  (s1, match v with
       | some u => if u = "" then "/dashboard" else u
       | none => "/dashboard")

/-- setReturnUrl(url): store the url in the sessionStorage slot. -/
def setReturnUrl (s : ServiceState) (url : String) : ServiceState :=
  { s with returnUrlSlot := some url }

/-- Outcome reported by the provider signIn call. -/
inductive SignInNext where
  | signedIn
  | nextStep (step : String)
  deriving DecidableEq

/-- handleSignInNextStep: route for each known intermediate step. -/
def signInNextNavigation (step : String) : List String :=
  if step = "CONFIRM_SIGN_UP" then ["/auth/confirm"]
  else if step = "RESET_PASSWORD" then ["/auth/reset-password"]
  else if step = "CONFIRM_SIGN_IN_WITH_NEW_PASSWORD_REQUIRED" then ["/auth/new-password"]
  else []

/-- signIn(credentials): setLoading(true); provider signIn; when fully
signed in, fetch the user, updateAuthState(true, user), restart the
refresh timer and navigate to the consumed return URL; on an
intermediate step only route; on provider error handleAuthError and
rethrow; finally setLoading(false). -/
def signInRun (s : ServiceState) (signInRes : Except String SignInNext)
    (fetchUser : Except Unit AuthUser) (expiryFetch : Option Nat) :
    ServiceState × List String × Bool :=
  let s1 := setLoading s true
  match signInRes with
  | Except.ok SignInNext.signedIn =>
      match fetchUser with
      | Except.ok u =>
          let s2 := updateAuthState s1 true (some u) expiryFetch
          let s3 := setupSessionRefresh s2
          let p := getReturnUrl s3
          let s5 := setLoading p.1 false
          (s5, [p.2], false)
      | Except.error _ =>
          let s2 := handleAuthError s1 "Unknown"
          let s3 := setLoading s2 false
          (s3, [], true)
  | Except.ok (SignInNext.nextStep step) =>
      let s2 := setLoading s1 false
      (s2, signInNextNavigation step, false)
  | Except.error name =>
      let s2 := handleAuthError s1 name
      let s3 := setLoading s2 false
      (s3, [], true)

/-- refreshSession(): fetchAuthSession; with tokens present, fetch the
user and updateAuthState(true, user) with a recomputed expiry; with no
tokens, updateAuthState(false, null); the catch branch also resets to
unauthenticated and then rethrows.  The Bool result records whether the
method rethrew. -/
def refreshSessionRun (s : ServiceState) (sessionTokens : Except String Bool)
    (fetchUser : Except Unit AuthUser) (expiryFetch : Option Nat) :
    ServiceState × Bool :=
  match sessionTokens with
  | Except.ok true =>
      match fetchUser with
      | Except.ok u => (updateAuthState s true (some u) expiryFetch, false)
      | Except.error _ => (updateAuthState s false none none, true)
  | Except.ok false => (updateAuthState s false none none, false)
  | Except.error _ => (updateAuthState s false none none, true)

/-- initializeAuth(): setLoading(true); getCurrentUser; update the record
either way; finally setLoading(false). -/
def initAuthRun (s : ServiceState) (fetchUser : Except Unit AuthUser)
    (expiryFetch : Option Nat) : ServiceState :=
  let s1 := setLoading s true
  let s2 := match fetchUser with
    | Except.ok u => updateAuthState s1 true (some u) expiryFetch
    | Except.error _ => updateAuthState s1 false none none
  setLoading s2 false

/-- checkAuthenticationState(): getCurrentUser and update the record
either way; the catch branch resets to unauthenticated. -/
def checkAuthenticationStateRun (s : ServiceState) (fetchUser : Except Unit AuthUser)
    (expiryFetch : Option Nat) : ServiceState :=
  match fetchUser with
  | Except.ok u => updateAuthState s true (some u) expiryFetch
  | Except.error _ => updateAuthState s false none none

/-- clearAuthState(): updateAuthState(false, null) then clearSessionTimer. -/
def clearAuthState (s : ServiceState) : ServiceState :=
  clearSessionTimer (updateAuthState s false none none)

/-- Body of the subscription installed by setupSessionRefresh: each timer
tick awaits refreshSession() and, only if that call rejects, awaits
signOut().  The Bool result records whether signOut was invoked. -/
def onRefreshTimerFire (s : ServiceState) (sessionTokens : Except String Bool)
    (fetchUser : Except Unit AuthUser) (expiryFetch : Option Nat)
    (remoteSignOut : Except String Unit) : ServiceState × Bool :=
  let p := refreshSessionRun s sessionTokens fetchUser expiryFetch
  if p.2 then ((signOutRun p.1 remoteSignOut).state, true)
  else (p.1, false)

/-- getAccessToken(): fetchAuthSession and extract the access token
string; the or-else maps a missing token or an empty string to null,
and the catch branch returns null, so the promise never rejects. -/
def getAccessTokenRun (sessionFetch : Except Unit (Option String)) : Option String :=
  match sessionFetch with
  | Except.ok (some t) => if t = "" then none else some t
  | Except.ok none => none
  | Except.error _ => none

/-- Result of an AuthGuard canActivate run. -/
structure GuardResult where
  state : ServiceState
  allowed : Bool
  navigations : List String
  deriving DecidableEq

/-- AuthGuard.canActivate(): await checkAuthStatus(); when false,
navigate to /login and deny; when true, allow.  A rejected status check
would propagate, hence the Except result. -/
def canActivateRun (s : ServiceState) (fetchUser : Except Unit AuthUser) :
    Except Unit GuardResult :=
  match checkAuthStatusRun s fetchUser with
  | (s1, Except.ok b) =>
      if b then Except.ok { state := s1, allowed := true, navigations := [] }
      else Except.ok { state := s1, allowed := false, navigations := ["/login"] }
  | (_, Except.error e) => Except.error e

/-- An outbound HTTP request: destination URL and header list. -/
structure HttpRequest where
  url : String
  headers : List (String × String)
  deriving DecidableEq

/-- JS String.includes: the needle occurs contiguously in the haystack. -/
def strIncludes (haystack needle : String) : Bool :=
  let h := haystack.toList
  let n := needle.toList
  (List.range (h.length + 1)).any (fun i => (h.drop i).take n.length == n)

/-- Exclusion list of the interceptor. -/
def excludedUrls : List String := ["/auth/", "/public/", "amazonaws.com", "amplifyapp.com"]

/-- shouldExcludeUrl(url): some excluded fragment occurs in the url. -/
def shouldExcludeUrl (url : String) : Bool :=
  excludedUrls.any (fun ex => strIncludes url ex)

/-- addAuthHeader(request, token): clone the request with the bearer
header set. -/
def addAuthHeader (req : HttpRequest) (token : String) : HttpRequest :=
  { req with headers := ("Authorization", "Bearer " ++ token) :: req.headers }

/-- Whether a request carries an Authorization header. -/
def hasAuthHeader (req : HttpRequest) : Bool :=
  req.headers.any (fun h => h.1 = "Authorization")

/-- Request actually forwarded by addTokenToRequest: attach the header
only when the awaited token is truthy; a null token forwards the
request untouched, and the catch branch on a rejected token promise
also forwards the request untouched. -/
def addTokenForwarded (req : HttpRequest) (tokenResult : Except Unit (Option String)) :
    HttpRequest :=
  match tokenResult with
  | Except.ok (some t) => if t = "" then req else addAuthHeader req t
  | Except.ok none => req
  | Except.error _ => req

/-- Request forwarded by intercept(): excluded URLs pass through; an
unauthenticated published AuthState passes through; otherwise
addTokenToRequest decides. -/
def interceptForwarded (a : AuthState) (req : HttpRequest)
    (tokenResult : Except Unit (Option String)) : HttpRequest :=
  if shouldExcludeUrl req.url then req
  else if a.isAuthenticated then addTokenForwarded req tokenResult
  else req

/-- Interceptor refresh-coalescing state: the isRefreshing flag and the
current value of the refreshTokenSubject rendezvous (none models the
null the subject is reset to). -/
structure InterceptorState where
  isRefreshing : Bool
  refreshTokenSubject : Option String
  deriving DecidableEq

/-- Interceptor state at construction. -/
def initialInterceptorState : InterceptorState :=
  { isRefreshing := false, refreshTokenSubject := none }

/-- Entry of handle401Error for one 401: when no refresh is in flight
the caller becomes the leader (sets the flag, resets the rendezvous to
null and will subscribe refreshToken, reported by the Bool); otherwise
it becomes a waiter on the rendezvous. -/
def arrive (s : InterceptorState) : InterceptorState × Bool :=
  if s.isRefreshing then (s, false)
  else ({ isRefreshing := true, refreshTokenSubject := none }, true)

/-- Process n concurrent 401 arrivals in event-loop order, counting how
many of them start a refreshSession call. -/
def processArrivals : Nat → InterceptorState → InterceptorState × Nat
  | 0, s => (s, 0)
  | Nat.succ n, s =>
      let p := arrive s
      let q := processArrivals n p.1
      (q.1, (if p.2 then 1 else 0) + q.2)

/-- refreshToken(): await refreshSession(), then await getAccessToken()
and emit the token with the empty string substituted for null; either
rejection becomes an error of the observable. -/
def refreshTokenResult (refreshSessionOutcome : Except String Unit)
    (tokenFetch : Except String (Option String)) : Except String String :=
  match refreshSessionOutcome with
  | Except.error e => Except.error e
  | Except.ok _ =>
      match tokenFetch with
      | Except.ok t => Except.ok (t.getD "")
      | Except.error e => Except.error e

/-- Final event surfaced to a caller of the interceptor. -/
inductive InterceptOutcome where
  | delivered
  | surfacedStatus (code : Nat)
  | refreshFailedError
  | providerError (e : String)
  deriving DecidableEq

/-- Transport outcome of one forwarded HTTP request. -/
inductive HttpResponse where
  | ok
  | errStatus (code : Nat)
  deriving DecidableEq

/-- Leader continuation of handle401Error after the refresh observable
settles: interceptor state on completion, event surfaced to the
original caller, token attached to the single retry when one happens,
number of signOut invocations, and number of refreshSession calls made
by this path. -/
structure LeaderResult where
  state : InterceptorState
  outcome : InterceptOutcome
  retryToken : Option String
  signOutCalls : Nat
  refreshSessionCalls : Nat
  deriving DecidableEq

/-- Leader path of handle401Error: after setting the flag and resetting
the rendezvous, subscribe refreshToken (one refreshSession call).  On an
emitted token: clear the flag, publish the token on the rendezvous, and
either retry the original request with the bearer header (truthy token)
or sign out and raise the refresh-failed error (empty token, which the
downstream catch handler also sees, signing out a second time).  Any
error in the pipe reaches the catch handler: clear the flag, sign out,
rethrow; the rendezvous is left at null in that case. -/
def handle401Leader (refreshRes : Except String String) (retryResp : HttpResponse) :
    LeaderResult :=
  match refreshRes with
  | Except.ok token =>
      let afterEmit : InterceptorState :=
        { isRefreshing := false, refreshTokenSubject := some token }
      if token = "" then
        { state := afterEmit, outcome := InterceptOutcome.refreshFailedError,
          retryToken := none, signOutCalls := 2, refreshSessionCalls := 1 }
      else
        match retryResp with
        | HttpResponse.ok =>
            { state := afterEmit, outcome := InterceptOutcome.delivered,
              retryToken := some token, signOutCalls := 0, refreshSessionCalls := 1 }
        | HttpResponse.errStatus c =>
            { state := afterEmit, outcome := InterceptOutcome.surfacedStatus c,
              retryToken := some token, signOutCalls := 1, refreshSessionCalls := 1 }
  | Except.error e =>
      { state := { isRefreshing := false, refreshTokenSubject := none },
        outcome := InterceptOutcome.providerError e,
        retryToken := none, signOutCalls := 1, refreshSessionCalls := 1 }

/-- How a waiter queued on the rendezvous stands once the leader path
has completed: still blocked while the subject holds null; released
with a failure on an empty token; released into a retry with the
published token otherwise. -/
inductive WaiterStatus where
  | unresolvedWait
  | failed
  | retry (token : String)
  deriving DecidableEq

/-- Waiter branch of handle401Error: filter out null, take the first
published value, then retry with a truthy token or raise the
refresh-failed error. -/
def waiterResolution (subject : Option String) : WaiterStatus :=
  match subject with
  | none => WaiterStatus.unresolvedWait
  | some t => if t = "" then WaiterStatus.failed else WaiterStatus.retry t

/-- Event surfaced to a waiter, given its resolution and the outcome of
its retried request; none when the waiter is never released. -/
def waiterOutcome (w : WaiterStatus) (retryResp : HttpResponse) :
    Option InterceptOutcome :=
  match w with
  | WaiterStatus.unresolvedWait => none
  | WaiterStatus.failed => some InterceptOutcome.refreshFailedError
  | WaiterStatus.retry _ =>
      match retryResp with
      | HttpResponse.ok => some InterceptOutcome.delivered
      | HttpResponse.errStatus c => some (InterceptOutcome.surfacedStatus c)

/-- End-to-end outcome of one intercepted request as seen from
addTokenToRequest: a successful first response is delivered; a 401
first response is handed to handle401Error (leader path, no refresh in
flight); any other error status is rethrown unmodified.  The Nat
counts retries of the original request. -/
def requestFlowResult (firstResp : HttpResponse) (refreshRes : Except String String)
    (retryResp : HttpResponse) : InterceptOutcome × Nat :=
  match firstResp with
  | HttpResponse.ok => (InterceptOutcome.delivered, 0)
  | HttpResponse.errStatus c =>
      if c = 401 then
        let r := handle401Leader refreshRes retryResp
        (r.outcome, if r.retryToken.isSome then 1 else 0)
      else (InterceptOutcome.surfacedStatus c, 0)

/-- Data-model invariant on the AuthState record: authenticated implies
a user is present; unauthenticated implies user and expiry are absent. -/
def SessionInv (a : AuthState) : Prop :=
  (a.isAuthenticated = true → a.user ≠ none) ∧
  (a.isAuthenticated = false → a.user = none ∧ a.sessionExpiry = none)

instance (a : AuthState) : Decidable (SessionInv a) := by
  unfold SessionInv; infer_instance

/-- Same invariant on the legacy subject pair, which carries no expiry. -/
def LegacyInv (s : ServiceState) : Prop :=
  (s.legacyIsAuthenticated = true → s.legacyUser ≠ none) ∧
  (s.legacyIsAuthenticated = false → s.legacyUser = none)

instance (s : ServiceState) : Decidable (LegacyInv s) := by
  unfold LegacyInv; infer_instance

/-- Both stores satisfy their invariant. -/
def FullInv (s : ServiceState) : Prop := SessionInv s.authState ∧ LegacyInv s

instance (s : ServiceState) : Decidable (FullInv s) := by
  unfold FullInv; infer_instance

/-- The rx subscriptions still live are exactly the one the service
field references: no timer leaks outside the tracked reference. -/
def TimerInv (s : ServiceState) : Prop :=
  s.liveTimers = s.sessionRefreshTimer.toList

instance (s : ServiceState) : Decidable (TimerInv s) := by
  unfold TimerInv; infer_instance

/-- Every state-changing entry point of the AuthService, tagged with the
outcomes of the provider calls the method awaits. -/
inductive AuthOp where
  | checkAuth (fetchUser : Except Unit AuthUser)
  | setAuth (u : AuthUser)
  | logoutOp (remoteOk : Bool)
  | initOp (fetchUser : Except Unit AuthUser) (expiry : Option Nat)
  | signInOp (res : Except String SignInNext) (fetchUser : Except Unit AuthUser)
      (expiry : Option Nat)
  | signOutOp (remote : Except String Unit)
  | refreshOp (tokens : Except String Bool) (fetchUser : Except Unit AuthUser)
      (expiry : Option Nat)
  | checkStateOp (fetchUser : Except Unit AuthUser) (expiry : Option Nat)
  | loadOp (b : Bool)
  | errOp (e : Option String)
  | clearAuthOp
  | setupTimerOp
  | clearTimerOp
  | setRetOp (url : String)
  | getRetOp
  | fireOp (tokens : Except String Bool) (fetchUser : Except Unit AuthUser)
      (expiry : Option Nat) (remote : Except String Unit)

/-- State effect of each AuthService operation. -/
def applyAuthOp : AuthOp → ServiceState → ServiceState
  | AuthOp.checkAuth f, s => (checkAuthStatusRun s f).1
  | AuthOp.setAuth u, s => setAuthenticated s u
  | AuthOp.logoutOp r, s => (logoutRun s r).1
  | AuthOp.initOp f e, s => initAuthRun s f e
  | AuthOp.signInOp r f e, s => (signInRun s r f e).1
  | AuthOp.signOutOp r, s => (signOutRun s r).state
  | AuthOp.refreshOp t f e, s => (refreshSessionRun s t f e).1
  | AuthOp.checkStateOp f e, s => checkAuthenticationStateRun s f e
  | AuthOp.loadOp b, s => setLoading s b
  | AuthOp.errOp e, s => setError s e
  | AuthOp.clearAuthOp, s => clearAuthState s
  | AuthOp.setupTimerOp, s => setupSessionRefresh s
  | AuthOp.clearTimerOp, s => clearSessionTimer s
  | AuthOp.setRetOp u, s => setReturnUrl s u
  | AuthOp.getRetOp, s => (getReturnUrl s).1
  | AuthOp.fireOp t f e r, s => (onRefreshTimerFire s t f e r).1

/-- A concrete authenticated service state, with the refresh timer
running and an authenticated record. -/
def sampleAuthedState : ServiceState :=
  { legacyIsAuthenticated := true, legacyUser := some "alice",
    authState :=
      { isAuthenticated := true, user := some "alice", isLoading := false,
        error := none, sessionExpiry := some 1700000000 },
    sessionRefreshTimer := some 0, liveTimers := [0], nextTimerId := 1,
    returnUrlSlot := none }

/-- C8 (amended): the return-URL slot is single-slot storage for every
non-empty URL: after setReturnUrl(u) the next consume returns u and
clears the slot, a second consume returns the configured default
destination /dashboard, and consuming a never-set slot returns
/dashboard.  An empty-string URL is indistinguishable from an unset
slot because the JS or-else falls back to /dashboard on it. -/
theorem returnUrl_single_slot_amended :
    (∀ (s : ServiceState) (u : String), u ≠ "" →
        (getReturnUrl (setReturnUrl s u)).2 = u ∧
        ((getReturnUrl (setReturnUrl s u)).1).returnUrlSlot = none) ∧
    (∀ (s : ServiceState) (u : String),
        (getReturnUrl ((getReturnUrl (setReturnUrl s u)).1)).2 = "/dashboard") ∧
    (∀ s : ServiceState, s.returnUrlSlot = none → (getReturnUrl s).2 = "/dashboard") := by
  refine ⟨?_, ?_, ?_⟩
  · intro s u hu
    exact ⟨by simp [getReturnUrl, setReturnUrl, hu], rfl⟩
  · intro s u; rfl
  · intro s h; simp [getReturnUrl, h]

/-- C8 counterexample: consuming right after setReturnUrl with the empty
string does not return the stored value; it returns /dashboard. -/
theorem returnUrl_single_slot_cex :
    (getReturnUrl (setReturnUrl initialServiceState "")).2 = "/dashboard" ∧
    ¬ (getReturnUrl (setReturnUrl initialServiceState "")).2 = "" := by
  exact ⟨rfl, by decide⟩

/-- C8 witness: the amended round trip at a concrete non-empty URL. -/
theorem returnUrl_single_slot_witness :
    (getReturnUrl (setReturnUrl initialServiceState "/auth/todos")).2 = "/auth/todos" :=
  (returnUrl_single_slot_amended.1 initialServiceState "/auth/todos" (by decide)).1

/-- C10: getAccessToken resolves to none rather than rejecting on a
session-fetch failure, and for a non-excluded URL under an
authenticated published AuthState, an absent token or a rejected token
promise still forwards the request, unmodified and with no
Authorization header added. -/
theorem token_absent_request_forwarded :
    getAccessTokenRun (Except.error ()) = none ∧
    (∀ (a : AuthState) (req : HttpRequest),
        shouldExcludeUrl req.url = false → a.isAuthenticated = true →
        interceptForwarded a req (Except.ok none) = req ∧
        interceptForwarded a req (Except.error ()) = req) ∧
    (∀ (a : AuthState) (req : HttpRequest) (tr : Except Unit (Option String)),
        shouldExcludeUrl req.url = false → a.isAuthenticated = true →
        hasAuthHeader req = false →
        (tr = Except.ok none ∨ tr = Except.error ()) →
        hasAuthHeader (interceptForwarded a req tr) = false) := by
  refine ⟨rfl, ?_, ?_⟩
  · intro a req hx ha
    constructor <;> simp [interceptForwarded, addTokenForwarded, hx, ha]
  · intro a req tr hx ha hh htr
    rcases htr with h | h <;> subst h <;>
      simpa [interceptForwarded, addTokenForwarded, hx, ha] using hh

/-- C10 witness: a concrete authenticated state and plain request with
an absent token is forwarded untouched. -/
theorem token_absent_request_forwarded_witness :
    interceptForwarded sampleAuthedState.authState
        { url := "/api/todos", headers := [] } (Except.ok none) =
      { url := "/api/todos", headers := [] } :=
  (token_absent_request_forwarded.2.1 sampleAuthedState.authState
    { url := "/api/todos", headers := [] } (by decide) (by decide)).1

/-- C9: checkAuthStatus and setAuthenticated update only the legacy
subjects and leave the AuthState record unchanged; concretely, after
setAuthenticated on the freshly constructed service the legacy verdict
is authenticated while the record verdict is not, so the interceptor
(reading the record) attaches no token to a request the guard (calling
checkAuthStatus) would wave through. -/
theorem legacy_record_divergence :
    (∀ (s : ServiceState) (f : Except Unit AuthUser),
        ((checkAuthStatusRun s f).1).authState = s.authState) ∧
    (∀ (s : ServiceState) (u : AuthUser),
        (setAuthenticated s u).authState = s.authState) ∧
    ((setAuthenticated initialServiceState "alice").legacyIsAuthenticated = true ∧
     (setAuthenticated initialServiceState "alice").authState.isAuthenticated = false) ∧
    interceptForwarded (setAuthenticated initialServiceState "alice").authState
        { url := "/api/todos", headers := [] } (Except.ok (some "tok")) =
      { url := "/api/todos", headers := [] } ∧
    canActivateRun (setAuthenticated initialServiceState "alice") (Except.ok "alice") =
      Except.ok
        { state := setAuthenticated initialServiceState "alice",
          allowed := true, navigations := [] } := by
  refine ⟨?_, fun s u => rfl, ⟨rfl, rfl⟩, by decide, rfl⟩
  intro s f; cases f <;> rfl

/-- C6 (amended): checkAuthStatus never raises: for either fetch outcome
it resolves, to true after publishing (true, user) on the legacy
subjects, or to false after publishing (false, null); the AuthState
record is left unchanged in both cases. -/
theorem checkStatus_amended :
    (∀ (s : ServiceState) (u : AuthUser),
        (checkAuthStatusRun s (Except.ok u)).2 = Except.ok true) ∧
    (∀ s : ServiceState,
        (checkAuthStatusRun s (Except.error ())).2 = Except.ok false) ∧
    (∀ (s : ServiceState) (u : AuthUser),
        (checkAuthStatusRun s (Except.ok u)).1 =
          { s with legacyIsAuthenticated := true, legacyUser := some u }) ∧
    (∀ s : ServiceState,
        (checkAuthStatusRun s (Except.error ())).1 =
          { s with legacyIsAuthenticated := false, legacyUser := none }) ∧
    (∀ (s : ServiceState) (f : Except Unit AuthUser),
        ((checkAuthStatusRun s f).1).authState = s.authState) := by
  refine ⟨fun s u => rfl, fun s => rfl, fun s u => rfl, fun s => rfl, ?_⟩
  intro s f; cases f <;> rfl

/-- C6 counterexample: from a state whose Session record is
authenticated, a failed identity fetch makes checkAuthStatus resolve
false, yet the Session record still reports authenticated with a user
and an expiry; the record was not set to the unauthenticated state. -/
theorem checkStatus_cex :
    (checkAuthStatusRun sampleAuthedState (Except.error ())).2 = Except.ok false ∧
    ((checkAuthStatusRun sampleAuthedState (Except.error ())).1).authState.isAuthenticated
      = true ∧
    ((checkAuthStatusRun sampleAuthedState (Except.error ())).1).authState
      ≠ initialAuthState := by
  exact ⟨rfl, rfl, by decide⟩

/-- C3 (amended): when the status check resolves false the guard
navigates to /login and returns false, but records no intended URL: it
never invokes setReturnUrl (canActivate does not even receive the
attempted URL) and the return-URL slot is unchanged; when the check
resolves true the guard returns true; in both cases the Session record
is unchanged and only the legacy subjects are refreshed. -/
theorem guard_amended :
    (∀ (s : ServiceState) (u : AuthUser),
        canActivateRun s (Except.ok u) =
          Except.ok
            { state := { s with legacyIsAuthenticated := true, legacyUser := some u },
              allowed := true, navigations := [] }) ∧
    (∀ s : ServiceState,
        canActivateRun s (Except.error ()) =
          Except.ok
            { state := { s with legacyIsAuthenticated := false, legacyUser := none },
              allowed := false, navigations := ["/login"] }) ∧
    (∀ (s : ServiceState) (f : Except Unit AuthUser) (g : GuardResult),
        canActivateRun s f = Except.ok g →
        g.state.returnUrlSlot = s.returnUrlSlot ∧ g.state.authState = s.authState) := by
  refine ⟨fun s u => rfl, fun s => rfl, ?_⟩
  intro s f g h
  cases f with
  | ok u =>
      simp only [canActivateRun, checkAuthStatusRun, if_pos] at h
      cases h
      exact ⟨rfl, rfl⟩
  | error e =>
      simp only [canActivateRun, checkAuthStatusRun] at h
      cases h
      exact ⟨rfl, rfl⟩

/-- C3 counterexample: denial from a state with an empty return-URL slot
leaves the slot empty: the guard denied and navigated to /login without
recording any intended URL. -/
theorem guard_cex :
    sampleAuthedState.returnUrlSlot = none ∧
    canActivateRun sampleAuthedState (Except.error ()) =
      Except.ok
        { state :=
            { sampleAuthedState with legacyIsAuthenticated := false, legacyUser := none },
          allowed := false, navigations := ["/login"] } :=
  ⟨rfl, rfl⟩

/-- C3 witness: the frame part of the amended guard contract at a
concrete denied activation. -/
theorem guard_witness :
    (GuardResult.mk
        { initialServiceState with legacyIsAuthenticated := false, legacyUser := none }
        false ["/login"]).state.returnUrlSlot = initialServiceState.returnUrlSlot :=
  (guard_amended.2.2 initialServiceState (Except.error ())
    (GuardResult.mk
      { initialServiceState with legacyIsAuthenticated := false, legacyUser := none }
      false ["/login"]) rfl).1

/-- Arrivals during an in-flight refresh start no further refresh. -/
lemma processArrivals_refreshing (n : Nat) (s : InterceptorState)
    (h : s.isRefreshing = true) : processArrivals n s = (s, 0) := by
  induction n with
  | zero => rfl
  | succ n ih =>
      unfold processArrivals
      simp [arrive, h, ih]

/-- A non-empty batch of 401 arrivals while idle starts exactly one
refreshSession call. -/
lemma processArrivals_one (n : Nat) :
    (processArrivals (Nat.succ n) initialInterceptorState).2 = 1 := by
  unfold processArrivals
  simp [arrive, initialInterceptorState,
    processArrivals_refreshing n { isRefreshing := true, refreshTokenSubject := none } rfl]

/-- C1 (amended): any non-empty batch of 401s arriving while no refresh
is in flight makes exactly one refreshSession call.  When the refresh
observable emits a token, every caller is resolved from that single
value: all retry with the same token when it is non-empty, and all fail
with the refresh-failed error when it is empty.  When the refresh
observable errors, the leader surfaces the failure and forces sign-out,
but waiters queued on the rendezvous are left unresolved, because the
failure is never published to the rendezvous subject. -/
theorem refresh_coalescing_amended :
    (∀ n : Nat, (processArrivals (Nat.succ n) initialInterceptorState).2 = 1) ∧
    (∀ (t : String) (rr : HttpResponse), t ≠ "" →
        (handle401Leader (Except.ok t) rr).retryToken = some t ∧
        waiterResolution (handle401Leader (Except.ok t) rr).state.refreshTokenSubject
          = WaiterStatus.retry t) ∧
    (∀ rr : HttpResponse,
        (handle401Leader (Except.ok "") rr).outcome = InterceptOutcome.refreshFailedError ∧
        waiterResolution (handle401Leader (Except.ok "") rr).state.refreshTokenSubject
          = WaiterStatus.failed) ∧
    (∀ (e : String) (rr : HttpResponse),
        (handle401Leader (Except.error e) rr).outcome = InterceptOutcome.providerError e ∧
        (handle401Leader (Except.error e) rr).signOutCalls = 1 ∧
        waiterResolution (handle401Leader (Except.error e) rr).state.refreshTokenSubject
          = WaiterStatus.unresolvedWait) := by
  refine ⟨processArrivals_one, ?_, ?_, fun e rr => ⟨rfl, rfl, rfl⟩⟩
  · intro t rr ht
    cases rr <;> constructor <;> simp [handle401Leader, waiterResolution, ht]
  · intro rr
    exact ⟨by simp [handle401Leader], by simp [handle401Leader, waiterResolution]⟩

/-- C1 counterexample: with a rejected refreshSession call, the leader
surfaces the provider error, but a waiter queued on the rendezvous
receives nothing at all: the rendezvous still holds null, so the waiter
hangs instead of receiving the same failure. -/
theorem refresh_coalescing_cex :
    (handle401Leader
        (refreshTokenResult (Except.error "SessionExpired") (Except.ok none))
        HttpResponse.ok).outcome = InterceptOutcome.providerError "SessionExpired" ∧
    waiterOutcome
        (waiterResolution
          (handle401Leader
            (refreshTokenResult (Except.error "SessionExpired") (Except.ok none))
            HttpResponse.ok).state.refreshTokenSubject)
        HttpResponse.ok = none :=
  ⟨rfl, rfl⟩

/-- C1 witness: the amended same-token part at a concrete token. -/
theorem refresh_coalescing_witness :
    (handle401Leader (Except.ok "tok") HttpResponse.ok).retryToken = some "tok" :=
  (refresh_coalescing_amended.2.1 "tok" HttpResponse.ok (by decide)).1

/-- C5: each original 401 request is retried at most once, a retry
happens only when the refresh yields a truthy token, a second 401 on
the retried request is surfaced as a hard failure with no further
retry, and every non-401 error status, whether on the first attempt or
on the retry, is surfaced unmodified. -/
theorem retry_at_most_once :
    (∀ (f : HttpResponse) (r : Except String String) (rr : HttpResponse),
        (requestFlowResult f r rr).2 ≤ 1) ∧
    (∀ (f : HttpResponse) (r : Except String String) (rr : HttpResponse),
        (requestFlowResult f r rr).2 = 1 →
        f = HttpResponse.errStatus 401 ∧ ∃ t, r = Except.ok t ∧ t ≠ "") ∧
    (∀ t : String, t ≠ "" →
        requestFlowResult (HttpResponse.errStatus 401) (Except.ok t)
            (HttpResponse.errStatus 401)
          = (InterceptOutcome.surfacedStatus 401, 1)) ∧
    (∀ (c : Nat) (r : Except String String) (rr : HttpResponse), c ≠ 401 →
        requestFlowResult (HttpResponse.errStatus c) r rr
          = (InterceptOutcome.surfacedStatus c, 0)) ∧
    (∀ (t : String) (c : Nat), t ≠ "" → c ≠ 401 →
        requestFlowResult (HttpResponse.errStatus 401) (Except.ok t)
            (HttpResponse.errStatus c)
          = (InterceptOutcome.surfacedStatus c, 1)) := by
  refine ⟨?_, ?_, ?_, ?_, ?_⟩
  · intro f r rr
    cases f with
    | ok => simp [requestFlowResult]
    | errStatus c =>
        by_cases hc : c = 401
        · subst hc
          cases r with
          | error e => simp [requestFlowResult, handle401Leader]
          | ok t =>
              by_cases ht : t = ""
              · subst ht; simp [requestFlowResult, handle401Leader]
              · cases rr <;> simp [requestFlowResult, handle401Leader, ht]
        · simp [requestFlowResult, hc]
  · intro f r rr h
    cases f with
    | ok => simp [requestFlowResult] at h
    | errStatus c =>
        by_cases hc : c = 401
        · subst hc
          cases r with
          | error e => simp [requestFlowResult, handle401Leader] at h
          | ok t =>
              by_cases ht : t = ""
              · subst ht; simp [requestFlowResult, handle401Leader] at h
              · exact ⟨rfl, t, rfl, ht⟩
        · simp [requestFlowResult, hc] at h
  · intro t ht; simp [requestFlowResult, handle401Leader, ht]
  · intro c r rr hc; simp [requestFlowResult, hc]
  · intro t c ht hc; simp [requestFlowResult, handle401Leader, ht]

/-- C5 witness: concrete second 401 after a successful refresh is a hard
failure with exactly one retry. -/
theorem retry_at_most_once_witness :
    requestFlowResult (HttpResponse.errStatus 401) (Except.ok "tok")
        (HttpResponse.errStatus 401)
      = (InterceptOutcome.surfacedStatus 401, 1) :=
  retry_at_most_once.2.2.1 "tok" (by decide)

/-- A successful signOut run resets the Session record to the default
unauthenticated state. -/
lemma signOut_ok_authState (s : ServiceState) :
    (signOutRun s (Except.ok ())).state.authState = initialAuthState := by
  cases hv : s.sessionRefreshTimer <;>
    simp [signOutRun, setLoading, updateAuthState, clearSessionTimer, initialAuthState, hv]

/-- A successful signOut run drops the timer reference. -/
lemma signOut_ok_timer (s : ServiceState) :
    (signOutRun s (Except.ok ())).state.sessionRefreshTimer = none := by
  cases hv : s.sessionRefreshTimer <;>
    simp [signOutRun, setLoading, updateAuthState, clearSessionTimer, hv]

/-- A successful signOut run leaves the legacy subjects untouched. -/
lemma signOut_ok_legacy (s : ServiceState) :
    (signOutRun s (Except.ok ())).state.legacyIsAuthenticated = s.legacyIsAuthenticated ∧
    (signOutRun s (Except.ok ())).state.legacyUser = s.legacyUser := by
  cases hv : s.sessionRefreshTimer <;>
    constructor <;>
      simp [signOutRun, setLoading, updateAuthState, clearSessionTimer, hv]

/-- Under the single-timer invariant, a successful signOut run leaves no
live rx subscription. -/
lemma signOut_ok_live (s : ServiceState) (h : TimerInv s) :
    (signOutRun s (Except.ok ())).state.liveTimers = [] := by
  unfold TimerInv at h
  cases hv : s.sessionRefreshTimer with
  | none =>
      rw [hv] at h
      simp [signOutRun, setLoading, updateAuthState, clearSessionTimer, hv, h]
  | some id =>
      rw [hv] at h
      simp [signOutRun, setLoading, updateAuthState, clearSessionTimer, hv,
        Option.toList] at h ⊢
      simp [h]

/-- C2 (amended): when the remote sign-out call succeeds, signOut leaves
the Session equal to the default unauthenticated state, cancels the
refresh timer, and navigates to /login.  When the remote call throws,
signOut rethrows: the authentication fields of the Session
(isAuthenticated, user, sessionExpiry) are left as they were, the error
field is set to the mapped message, loading is cleared, and the timer is
not cancelled.  (The separate logout() method is the one that clears
local state even on remote failure.) -/
theorem signOut_amended :
    (∀ s : ServiceState,
        (signOutRun s (Except.ok ())).state.authState = initialAuthState ∧
        (signOutRun s (Except.ok ())).state.sessionRefreshTimer = none ∧
        (signOutRun s (Except.ok ())).navigations = ["/login"] ∧
        (signOutRun s (Except.ok ())).threw = false) ∧
    (∀ s : ServiceState, TimerInv s →
        (signOutRun s (Except.ok ())).state.liveTimers = []) ∧
    (∀ (s : ServiceState) (name : String),
        (signOutRun s (Except.error name)).threw = true ∧
        (signOutRun s (Except.error name)).state.authState.isAuthenticated
          = s.authState.isAuthenticated ∧
        (signOutRun s (Except.error name)).state.authState.user = s.authState.user ∧
        (signOutRun s (Except.error name)).state.authState.sessionExpiry
          = s.authState.sessionExpiry ∧
        (signOutRun s (Except.error name)).state.authState.error
          = some (mapAuthErrorMessage name) ∧
        (signOutRun s (Except.error name)).state.authState.isLoading = false ∧
        (signOutRun s (Except.error name)).state.sessionRefreshTimer
          = s.sessionRefreshTimer ∧
        (signOutRun s (Except.error name)).state.liveTimers = s.liveTimers) := by
  refine ⟨?_, signOut_ok_live, ?_⟩
  · intro s
    exact ⟨signOut_ok_authState s, signOut_ok_timer s, by unfold signOutRun; rfl,
      by unfold signOutRun; rfl⟩
  · intro s name
    exact ⟨rfl, rfl, rfl, rfl, rfl, rfl, rfl, rfl⟩

/-- C2 counterexample: from an authenticated state with no live timer
change, a rejected remote sign-out leaves the Session still
authenticated (not the default unauthenticated state) and leaves the
refresh timer running. -/
theorem signOut_cex :
    (signOutRun sampleAuthedState (Except.error "NetworkError")).state.authState
      ≠ initialAuthState ∧
    (signOutRun sampleAuthedState (Except.error "NetworkError")).state.authState.isAuthenticated
      = true ∧
    (signOutRun sampleAuthedState (Except.error "NetworkError")).state.sessionRefreshTimer
      = some 0 ∧
    (signOutRun sampleAuthedState (Except.error "NetworkError")).threw = true := by
  exact ⟨by decide, rfl, rfl, rfl⟩

/-- C2 witness: the amended success contract with the timer hypothesis
discharged at a concrete authenticated state. -/
theorem signOut_amended_witness :
    (signOutRun sampleAuthedState (Except.ok ())).state.liveTimers = [] :=
  signOut_amended.2.1 sampleAuthedState (by decide)

/-- clearSessionTimer changes no field but the timer bookkeeping. -/
lemma clearTimer_frame (s : ServiceState) :
    (clearSessionTimer s).authState = s.authState ∧
    (clearSessionTimer s).legacyIsAuthenticated = s.legacyIsAuthenticated ∧
    (clearSessionTimer s).legacyUser = s.legacyUser := by
  cases hv : s.sessionRefreshTimer <;> simp [clearSessionTimer, hv]

/-- setupSessionRefresh changes no field but the timer bookkeeping. -/
lemma setup_frame (s : ServiceState) :
    (setupSessionRefresh s).authState = s.authState ∧
    (setupSessionRefresh s).legacyIsAuthenticated = s.legacyIsAuthenticated ∧
    (setupSessionRefresh s).legacyUser = s.legacyUser := by
  have h := clearTimer_frame s
  exact ⟨h.1, h.2.1, h.2.2⟩

/-- clearSessionTimer preserves the single-timer invariant and leaves no
live subscription. -/
lemma timerInv_clear (s : ServiceState) (h : TimerInv s) :
    TimerInv (clearSessionTimer s) ∧ (clearSessionTimer s).liveTimers = [] := by
  unfold TimerInv at *
  cases hv : s.sessionRefreshTimer with
  | none =>
      rw [hv] at h
      constructor <;> simp [clearSessionTimer, hv, Option.toList] <;> simpa using h
  | some id =>
      rw [hv] at h
      simp [Option.toList] at h
      constructor <;> simp [clearSessionTimer, hv, Option.toList, h]

/-- setupSessionRefresh preserves the single-timer invariant and leaves
exactly one live subscription: the newly created one. -/
lemma timerInv_setup (s : ServiceState) (h : TimerInv s) :
    TimerInv (setupSessionRefresh s) ∧ (setupSessionRefresh s).liveTimers.length = 1 := by
  have hc := (timerInv_clear s h).2
  unfold TimerInv
  unfold setupSessionRefresh
  constructor
  · show (clearSessionTimer s).nextTimerId :: (clearSessionTimer s).liveTimers
        = (some (clearSessionTimer s).nextTimerId : Option Nat).toList
    rw [hc]; rfl
  · show ((clearSessionTimer s).nextTimerId :: (clearSessionTimer s).liveTimers).length = 1
    rw [hc]; rfl

/-- C4: the refresh timer is created with due time 0 and a 45-minute
period, so its k-th firing is at 45-minute multiples starting at 0;
each firing runs refreshSession and, exactly when that call rejects,
forces a signOut; setupSessionRefresh always cancels the previous
subscription first and clearSessionTimer removes the live one, so under
the single-timer invariant there is never more than one live timer. -/
theorem refresh_timer_contract :
    rxTimerFireTime sessionRefreshTimerArgs.1 sessionRefreshTimerArgs.2 0 = 0 ∧
    (∀ k : Nat,
        rxTimerFireTime sessionRefreshTimerArgs.1 sessionRefreshTimerArgs.2 (k + 1)
          = rxTimerFireTime sessionRefreshTimerArgs.1 sessionRefreshTimerArgs.2 k
            + 45 * 60 * 1000) ∧
    (∀ (s : ServiceState) (t : Except String Bool) (f : Except Unit AuthUser)
        (e : Option Nat) (r : Except String Unit),
        (refreshSessionRun s t f e).2 = false →
        (onRefreshTimerFire s t f e r).1 = (refreshSessionRun s t f e).1 ∧
        (onRefreshTimerFire s t f e r).2 = false) ∧
    (∀ (s : ServiceState) (t : Except String Bool) (f : Except Unit AuthUser)
        (e : Option Nat) (r : Except String Unit),
        (refreshSessionRun s t f e).2 = true →
        (onRefreshTimerFire s t f e r).1 = (signOutRun (refreshSessionRun s t f e).1 r).state ∧
        (onRefreshTimerFire s t f e r).2 = true) ∧
    (∀ s : ServiceState, TimerInv s →
        TimerInv (setupSessionRefresh s) ∧ TimerInv (clearSessionTimer s)) ∧
    (∀ s : ServiceState, TimerInv s →
        (setupSessionRefresh s).liveTimers.length = 1 ∧
        (clearSessionTimer s).liveTimers = []) ∧
    (∀ s : ServiceState, TimerInv s → s.liveTimers.length ≤ 1) := by
  refine ⟨rfl, ?_, ?_, ?_, ?_, ?_, ?_⟩
  · intro k
    show (0 : Nat) + 45 * 60 * 1000 * (k + 1)
        = 0 + 45 * 60 * 1000 * k + 45 * 60 * 1000
    ring
  · intro s t f e r h
    simp only [onRefreshTimerFire]
    rw [h]
    exact ⟨rfl, rfl⟩
  · intro s t f e r h
    simp only [onRefreshTimerFire]
    rw [h]
    exact ⟨rfl, rfl⟩
  · intro s h
    exact ⟨(timerInv_setup s h).1, (timerInv_clear s h).1⟩
  · intro s h
    exact ⟨(timerInv_setup s h).2, (timerInv_clear s h).2⟩
  · intro s h
    unfold TimerInv at h
    rw [h]
    cases s.sessionRefreshTimer <;> simp

/-- C4 witness: the timer contract at a concrete state with one running
timer. -/
theorem refresh_timer_contract_witness :
    TimerInv (setupSessionRefresh sampleAuthedState) :=
  (refresh_timer_contract.2.2.2.2.1 sampleAuthedState (by decide)).1

/-- updateAuthState with an authenticated verdict and a present user
satisfies the record invariant. -/
lemma sessionInv_updTrue (s : ServiceState) (u : AuthUser) (e : Option Nat) :
    SessionInv (updateAuthState s true (some u) e).authState := by
  unfold SessionInv updateAuthState
  simp

/-- updateAuthState with an unauthenticated verdict satisfies the record
invariant. -/
lemma sessionInv_updFalse (s : ServiceState) (e : Option Nat) :
    SessionInv (updateAuthState s false none e).authState := by
  unfold SessionInv updateAuthState
  simp

/-- The legacy invariant transports along unchanged legacy fields. -/
lemma legacyInv_frames (s1 s : ServiceState)
    (h1 : s1.legacyIsAuthenticated = s.legacyIsAuthenticated)
    (h2 : s1.legacyUser = s.legacyUser) (h : LegacyInv s) : LegacyInv s1 := by
  unfold LegacyInv at *
  rw [h1, h2]
  exact h

/-- Publishing (true, user) on the legacy pair satisfies its invariant. -/
lemma legacyInv_true (s : ServiceState) (u : AuthUser) :
    LegacyInv { s with legacyIsAuthenticated := true, legacyUser := some u } := by
  unfold LegacyInv
  simp

/-- Publishing (false, null) on the legacy pair satisfies its invariant. -/
lemma legacyInv_false (s : ServiceState) :
    LegacyInv { s with legacyIsAuthenticated := false, legacyUser := none } := by
  unfold LegacyInv
  simp

/-- A refreshSession run preserves the two-store invariant. -/
lemma fullInv_refresh (s : ServiceState) (t : Except String Bool)
    (f : Except Unit AuthUser) (e : Option Nat) (h : FullInv s) :
    FullInv (refreshSessionRun s t f e).1 := by
  cases t with
  | ok b =>
      cases b
      · exact ⟨sessionInv_updFalse s none, h.2⟩
      · cases f with
        | ok u => exact ⟨sessionInv_updTrue s u e, h.2⟩
        | error _ => exact ⟨sessionInv_updFalse s none, h.2⟩
  | error _ => exact ⟨sessionInv_updFalse s none, h.2⟩

/-- A signOut run preserves the two-store invariant for either remote
outcome. -/
lemma fullInv_signOutRun (s : ServiceState) (r : Except String Unit)
    (h : FullInv s) : FullInv (signOutRun s r).state := by
  cases r with
  | ok u =>
      cases u
      refine ⟨?_, ?_⟩
      · rw [signOut_ok_authState s]
        decide
      · exact legacyInv_frames _ s (signOut_ok_legacy s).1 (signOut_ok_legacy s).2 h.2
  | error name => exact ⟨h.1, h.2⟩

/-- C7: every state-changing operation of the AuthService preserves the
data-model invariant on both stores: an authenticated verdict always
comes with a present user, and an unauthenticated verdict always comes
with an absent user and an absent sessionExpiry. -/
theorem session_invariant_preserved (op : AuthOp) (s : ServiceState)
    (h : FullInv s) : FullInv (applyAuthOp op s) := by
  cases op with
  | checkAuth f =>
      cases f with
      | ok u => exact ⟨h.1, legacyInv_true s u⟩
      | error _ => exact ⟨h.1, legacyInv_false s⟩
  | setAuth u => exact ⟨h.1, legacyInv_true s u⟩
  | logoutOp r =>
      cases r
      · exact ⟨h.1, legacyInv_false s⟩
      · exact ⟨h.1, legacyInv_false s⟩
  | initOp f e =>
      cases f with
      | ok u => exact ⟨sessionInv_updTrue (setLoading s true) u e, h.2⟩
      | error _ => exact ⟨sessionInv_updFalse (setLoading s true) none, h.2⟩
  | signInOp r f e =>
      cases r with
      | ok nx =>
          cases nx with
          | signedIn =>
              cases f with
              | ok u =>
                  refine ⟨?_, ?_⟩
                  · show SessionInv (setupSessionRefresh
                        (updateAuthState (setLoading s true) true (some u) e)).authState
                    rw [(setup_frame _).1]
                    exact sessionInv_updTrue (setLoading s true) u e
                  · exact legacyInv_frames _ s
                      (setup_frame (updateAuthState (setLoading s true) true (some u) e)).2.1
                      (setup_frame (updateAuthState (setLoading s true) true (some u) e)).2.2
                      h.2
              | error _ => exact ⟨h.1, h.2⟩
          | nextStep step => exact ⟨h.1, h.2⟩
      | error name => exact ⟨h.1, h.2⟩
  | signOutOp r => exact fullInv_signOutRun s r h
  | refreshOp t f e => exact fullInv_refresh s t f e h
  | checkStateOp f e =>
      cases f with
      | ok u => exact ⟨sessionInv_updTrue s u e, h.2⟩
      | error _ => exact ⟨sessionInv_updFalse s none, h.2⟩
  | loadOp b => exact ⟨h.1, h.2⟩
  | errOp e => exact ⟨h.1, h.2⟩
  | clearAuthOp =>
      refine ⟨?_, ?_⟩
      · show SessionInv (clearSessionTimer (updateAuthState s false none none)).authState
        rw [(clearTimer_frame _).1]
        exact sessionInv_updFalse s none
      · exact legacyInv_frames _ s
          (clearTimer_frame (updateAuthState s false none none)).2.1
          (clearTimer_frame (updateAuthState s false none none)).2.2
          h.2
  | setupTimerOp =>
      refine ⟨?_, ?_⟩
      · show SessionInv (setupSessionRefresh s).authState
        rw [(setup_frame s).1]
        exact h.1
      · exact legacyInv_frames _ s (setup_frame s).2.1 (setup_frame s).2.2 h.2
  | clearTimerOp =>
      refine ⟨?_, ?_⟩
      · show SessionInv (clearSessionTimer s).authState
        rw [(clearTimer_frame s).1]
        exact h.1
      · exact legacyInv_frames _ s (clearTimer_frame s).2.1 (clearTimer_frame s).2.2 h.2
  | setRetOp u => exact ⟨h.1, h.2⟩
  | getRetOp => exact ⟨h.1, h.2⟩
  | fireOp t f e r =>
      have h1 := fullInv_refresh s t f e h
      simp only [applyAuthOp, onRefreshTimerFire]
      split
      · exact fullInv_signOutRun _ r h1
      · exact h1

/-- C7 witness: the invariant holds at the initial state and is carried
through a concrete setAuthenticated call. -/
theorem session_invariant_preserved_witness :
    FullInv (applyAuthOp (AuthOp.setAuth "alice") initialServiceState) :=
  session_invariant_preserved (AuthOp.setAuth "alice") initialServiceState (by decide)

end SeedAuth
